import Mathlib

/-!
Verification development for the LMMS audio core sources:
the AudioFileProcessor instrument (sample point-edit protocol and the
per-period voice driver playNote), the SDL audio device callback, and the
Effect wet/dry interface.  Floating-point values of the source are
modelled as exact rationals, machine integer frame counts as integers.
-/

namespace LmmsCore

/-- Clamp of a model value into the model range, as performed by
AutomatableModel setValue through fittedValue (qBound of min, value, max)
with the model range 0 .. 1 used by the three point models. -/
def clamp01 (x : ℚ) : ℚ := max 0 (min x 1)

/-- Truncation toward zero of a rational, the behavior of the C cast
static_cast to the integer frame-count type for the values at hand. -/
def ratTrunc (q : ℚ) : ℤ := if q < 0 then -(⌊-q⌋) else ⌊q⌋

/-- State of the AudioFileProcessor instrument that the point-edit
operations and playNote touch: the three normalized point models, the
Sample frame markers, the stutter continuation cursor, and the
configuration models read by playNote.  sampleSize is the total frame
count of the loaded sample. -/
structure AfpState where
  startPoint : ℚ
  endPoint : ℚ
  loopPoint : ℚ
  sampleSize : ℕ
  startFrame : ℤ
  endFrame : ℤ
  loopStartFrame : ℤ
  loopEndFrame : ℤ
  nextPlayStartPoint : ℤ
  nextPlayBackwards : Bool
  stutterModel : Bool
  interpolationModel : ℕ
  loopModel : ℕ
  deriving Repr, DecidableEq

/-- AudioFileProcessor pointChanged: recompute the absolute frame markers
from the normalized values (fraction times sampleSize, truncated by the
cast), reset the stutter continuation cursor to the new start frame, and
store the markers into the Sample via setAllPointFrames with
loopEndFrame set to the end frame. -/
def pointChanged (st : AfpState) : AfpState :=
  let fStart := ratTrunc (st.startPoint * st.sampleSize)
  let fEnd := ratTrunc (st.endPoint * st.sampleSize)
  let fLoop := ratTrunc (st.loopPoint * st.sampleSize)
  { st with
    nextPlayStartPoint := fStart
    nextPlayBackwards := false
    startFrame := fStart
    endFrame := fEnd
    loopStartFrame := fLoop
    loopEndFrame := fEnd }

/-- The conflict-resolution sequence of AudioFileProcessor
startPointChanged on the triple of normalized values: swap start and end
when start is over end, nudge the loop point below end, nudge the loop
point up to start, and nudge end up by 0.001 (clamped to 1) when start
and end coincide.  Each model write goes through the clamp of setValue. -/
def resolveStartEnd (s e l : ℚ) : ℚ × ℚ × ℚ :=
  let p := if s > e then (clamp01 e, clamp01 s) else (s, e)
  let s := p.1
  let e := p.2
  let l := if l ≥ e then clamp01 (max (e - 1/1000) 0) else l
  let l := if l < s then clamp01 s else l
  let e := if s = e then clamp01 (min (e + 1/1000) 1) else e
  (s, e, l)

/-- AudioFileProcessor startPointChanged: resolve conflicts on the three
normalized models, then recompute the frame markers via pointChanged. -/
def startPointChanged (st : AfpState) : AfpState :=
  let r := resolveStartEnd st.startPoint st.endPoint st.loopPoint
  pointChanged { st with startPoint := r.1, endPoint := r.2.1, loopPoint := r.2.2 }

/-- AudioFileProcessor endPointChanged delegates to startPointChanged. -/
def endPointChanged (st : AfpState) : AfpState :=
  startPointChanged st

/-- The conflict-resolution sequence of AudioFileProcessor
loopPointChanged on the triple of normalized values: when the loop point
reaches end, push end to loop plus 0.001 (model write clamps to 1), and
when that write lands exactly on 1 pull the loop point back to 1 minus
0.001; then pull start down to the loop point when the loop point is
below start. -/
def resolveLoop (s e l : ℚ) : ℚ × ℚ × ℚ :=
  let p :=
    if l ≥ e then
      let e2 := clamp01 (l + 1/1000)
      if e2 = 1 then (e2, clamp01 (1 - 1/1000)) else (e2, l)
    else (e, l)
  let e := p.1
  let l := p.2
  let s := if l < s then clamp01 l else s
  (s, e, l)

/-- AudioFileProcessor loopPointChanged: resolve conflicts on the three
normalized models, then recompute the frame markers via pointChanged. -/
def loopPointChanged (st : AfpState) : AfpState :=
  let r := resolveLoop st.startPoint st.endPoint st.loopPoint
  pointChanged { st with startPoint := r.1, endPoint := r.2.1, loopPoint := r.2.2 }

/-- Normalized point edit of the start model: the model write (clamped by
setValue) followed by the startPointChanged slot. -/
def setStart (v : ℚ) (st : AfpState) : AfpState :=
  startPointChanged { st with startPoint := clamp01 v }

/-- Normalized point edit of the end model: the model write (clamped by
setValue) followed by the endPointChanged slot. -/
def setEnd (v : ℚ) (st : AfpState) : AfpState :=
  endPointChanged { st with endPoint := clamp01 v }

/-- Normalized point edit of the loop model: the model write (clamped by
setValue) followed by the loopPointChanged slot. -/
def setLoop (v : ℚ) (st : AfpState) : AfpState :=
  loopPointChanged { st with loopPoint := clamp01 v }

/-- A point edit with its normalized argument. -/
inductive PointOp where
  | editStart (v : ℚ)
  | editEnd (v : ℚ)
  | editLoop (v : ℚ)
  deriving Repr, DecidableEq

/-- Apply one point edit. -/
def applyPointOp (op : PointOp) (st : AfpState) : AfpState :=
  match op with
  | PointOp.editStart v => setStart v st
  | PointOp.editEnd v => setEnd v st
  | PointOp.editLoop v => setLoop v st

/-- Apply a sequence of point edits in order. -/
def runPointOps (ops : List PointOp) (st : AfpState) : AfpState :=
  ops.foldl (fun s op => applyPointOp op s) st

/-- State after the AudioFileProcessor constructor for a sample of n
frames: start model 0, end model 1, loop model 0, stutter off, linear
interpolation, loop mode off, followed by the pointChanged call the
constructor performs. -/
def initAfpState (n : ℕ) : AfpState :=
  pointChanged
    { startPoint := 0
      endPoint := 1
      loopPoint := 0
      sampleSize := n
      startFrame := 0
      endFrame := 0
      loopStartFrame := 0
      loopEndFrame := 0
      nextPlayStartPoint := 0
      nextPlayBackwards := false
      stutterModel := false
      interpolationModel := 1
      loopModel := 0 }

/-- The three normalized point models lie in the model range 0 .. 1. -/
abbrev InRange01 (st : AfpState) : Prop :=
  0 ≤ st.startPoint ∧ st.startPoint ≤ 1 ∧ 0 ≤ st.endPoint ∧ st.endPoint ≤ 1 ∧
    0 ≤ st.loopPoint ∧ st.loopPoint ≤ 1

/-- The marker ordering the spec asserts: start strictly below end and
the loop point in the half-open interval from start to end. -/
abbrev MarkersOrdered (st : AfpState) : Prop :=
  st.startPoint < st.endPoint ∧ st.startPoint ≤ st.loopPoint ∧
    st.loopPoint < st.endPoint

/-- The degenerate saturated state where all three normalized markers sit
at the top of the model range. -/
abbrev MarkersSaturated (st : AfpState) : Prop :=
  st.startPoint = 1 ∧ st.endPoint = 1 ∧ st.loopPoint = 1

/-- The stored frame markers agree with the recomputation from the
normalized values, as established by every pointChanged call. -/
abbrev FrameConsistent (st : AfpState) : Prop :=
  st.startFrame = ratTrunc (st.startPoint * st.sampleSize) ∧
    st.endFrame = ratTrunc (st.endPoint * st.sampleSize) ∧
    st.loopStartFrame = ratTrunc (st.loopPoint * st.sampleSize) ∧
    st.loopEndFrame = ratTrunc (st.endPoint * st.sampleSize)

/-- The words of the spec for setLoop, written independently of the
source: if loop is at or past end, push end to loop plus 0.001 clamped to
the 0 .. 1 model range, and if that push leaves end at exactly 1.0 pull
loop back to 1.0 minus 0.001; if loop is below start, pull start down to
loop.  Returns the resulting triple of start, end, loop. -/
def setLoopSpecWords (v s e : ℚ) : ℚ × ℚ × ℚ :=
  let l := v
  let q :=
    if l ≥ e then
      let e2 := max 0 (min (l + 1/1000) 1)
      (e2, if e2 = 1 then 1 - 1/1000 else l)
    else (e, l)
  let s2 := if q.2 < s then q.2 else s
  (s2, q.1, q.2)

/-- A concrete mid-range state with coinciding markers, frame markers
consistent, used to probe the point-edit operations. -/
def afpMidState : AfpState :=
  { startPoint := 1/2
    endPoint := 1/2
    loopPoint := 1/2
    sampleSize := 100
    startFrame := 50
    endFrame := 50
    loopStartFrame := 50
    loopEndFrame := 50
    nextPlayStartPoint := 50
    nextPlayBackwards := false
    stutterModel := false
    interpolationModel := 1
    loopModel := 0 }

/-- One stereo audio frame, a pair of sample values. -/
abbrev SampleFrame := ℚ × ℚ

/-- The silent frame. -/
def zeroFrame : SampleFrame := ((0 : ℚ), (0 : ℚ))

/-- libsamplerate converter constant SRC_SINC_MEDIUM_QUALITY. -/
def SRC_SINC_MEDIUM_QUALITY : ℤ := 1

/-- libsamplerate converter constant SRC_ZERO_ORDER_HOLD. -/
def SRC_ZERO_ORDER_HOLD : ℤ := 3

/-- libsamplerate converter constant SRC_LINEAR. -/
def SRC_LINEAR : ℤ := 4

/-- The interpolation-mode switch of playNote: item 0 selects zero-order
hold, item 1 linear, item 2 medium-quality sinc; the variable is
initialized to SRC_LINEAR and the switch leaves it there otherwise. -/
def srcModeOf (interpolationItem : ℕ) : ℤ :=
  match interpolationItem with
  | 0 => SRC_ZERO_ORDER_HOLD
  | 1 => SRC_LINEAR
  | 2 => SRC_SINC_MEDIUM_QUALITY
  | _ => SRC_LINEAR

/-- Sample PlaybackState: the per-voice cursor (frame index and
direction) together with the resampler configuration it was constructed
with. -/
structure PlaybackState where
  varyingPitch : Bool
  srcmode : ℤ
  frameIndex : ℤ
  backwards : Bool
  deriving Repr, DecidableEq

/-- The per-call inputs playNote reads from the NotePlayHandle. -/
structure NoteInput where
  frequency : ℚ
  framesLeft : ℕ
  offset : ℕ
  isFinished : Bool
  hasDetuningInfo : Bool
  pluginData : Option PlaybackState
  deriving Repr, DecidableEq

/-- Result of one Sample render call (Sample play): whether playable
audio was produced, the state the call left behind, and the frames it
wrote at the buffer offset. -/
structure PlayResult where
  produced : Bool
  state : PlaybackState
  rendered : List SampleFrame
  deriving Repr, DecidableEq

/-- Result of one playNote invocation: the updated instrument state, the
plugin-data slot of the note, and the working buffer contents. -/
structure PlayNoteResult where
  st : AfpState
  pluginData : Option PlaybackState
  buffer : List SampleFrame
  deriving Repr, DecidableEq

/-- Overwrite the buffer starting at the given offset with the given
frames, the effect of rendering into workingBuffer plus offset. -/
def writeFramesAt (buf : List SampleFrame) (offset : ℕ)
    (content : List SampleFrame) : List SampleFrame :=
  buf.take offset ++ content ++ buf.drop (offset + content.length)

/-- Zero the first k frames of the buffer, the effect of the memset call
of playNote. -/
def memsetZero (k : ℕ) (buf : List SampleFrame) : List SampleFrame :=
  List.replicate k zeroFrame ++ buf.drop k

/-- The plugin-data creation block of playNote, run when the note has no
PlaybackState yet: in stutter mode a continuation cursor at or past the
end frame is first reset to the start frame with forward direction, then
a PlaybackState is constructed with the configured resampler mode and
its cursor set from the continuation point.  An existing PlaybackState
is used as is. -/
def createPlaybackState (st : AfpState) (n : NoteInput) :
    AfpState × PlaybackState :=
  match n.pluginData with
  | some ps => (st, ps)
  | none =>
      let st1 :=
        if st.stutterModel = true ∧ st.nextPlayStartPoint ≥ st.endFrame then
          { st with nextPlayStartPoint := st.startFrame, nextPlayBackwards := false }
        else st
      (st1,
        { varyingPitch := n.hasDetuningInfo
          srcmode := srcModeOf st1.interpolationModel
          frameIndex := st1.nextPlayStartPoint
          backwards := st1.nextPlayBackwards })

/-- The body of playNote past the magic-frequency check.  The Sample
render call (Sample play, outside these sources) is a parameter taking
the playback state, the frame count, the note frequency and the loop
mode; applyRelease of the instrument track is likewise a parameter.  On
a produced render the rendered frames are written at the note offset and
applyRelease runs over the working buffer; on an exhausted render the
first framesLeft plus offset frames are zeroed.  A finished note renders
nothing.  With stutter enabled the resulting cursor and direction are
persisted as the continuation point. -/
def playNoteOrdinary
    (play : PlaybackState → ℕ → ℚ → ℕ → PlayResult)
    (applyRelease : List SampleFrame → List SampleFrame)
    (st : AfpState) (n : NoteInput) (workingBuffer : List SampleFrame) :
    PlayNoteResult :=
  let frames := n.framesLeft
  let offset := n.offset
  let c := createPlaybackState st n
  let st1 := c.1
  let pd := c.2
  let pr : PlaybackState × List SampleFrame :=
    if n.isFinished = false then
      let r := play pd frames n.frequency st1.loopModel
      if r.produced = true then
        (r.state, applyRelease (writeFramesAt workingBuffer offset r.rendered))
      else
        (r.state, memsetZero (frames + offset) workingBuffer)
    else (pd, workingBuffer)
  let pd1 := pr.1
  let buf1 := pr.2
  let st2 :=
    if st1.stutterModel = true then
      { st1 with nextPlayStartPoint := pd1.frameIndex,
                 nextPlayBackwards := pd1.backwards }
    else st1
  { st := st2, pluginData := some pd1, buffer := buf1 }

/-- AudioFileProcessor playNote: a frequency below 20 while stutter mode
is on is the magic control input, which resets the continuation cursor
to the start frame, creates nothing and renders nothing; otherwise the
ordinary body runs. -/
def playNote
    (play : PlaybackState → ℕ → ℚ → ℕ → PlayResult)
    (applyRelease : List SampleFrame → List SampleFrame)
    (st : AfpState) (n : NoteInput) (workingBuffer : List SampleFrame) :
    PlayNoteResult :=
  if st.stutterModel = true ∧ n.frequency < 20 then
    { st := { st with nextPlayStartPoint := st.startFrame, nextPlayBackwards := false }
      pluginData := n.pluginData
      buffer := workingBuffer }
  else
    playNoteOrdinary play applyRelease st n workingBuffer

/-- Iterate playNote over successive periods of one sustained note: each
period supplies a frame count, a note offset and a working buffer; the
plugin-data slot and the instrument state are threaded through.  Returns
the per-period output buffers with the final state and slot. -/
def playPeriods
    (play : PlaybackState → ℕ → ℚ → ℕ → PlayResult)
    (applyRelease : List SampleFrame → List SampleFrame)
    (freq : ℚ) (hasDet : Bool) :
    List (ℕ × ℕ × List SampleFrame) → AfpState → Option PlaybackState →
      List (List SampleFrame) × AfpState × Option PlaybackState
  | [], st, pd => ([], st, pd)
  | (f, o, buf) :: rest, st, pd =>
      let r := playNote play applyRelease st
        { frequency := freq, framesLeft := f, offset := o, isFinished := false,
          hasDetuningInfo := hasDet, pluginData := pd } buf
      let q := playPeriods play applyRelease freq hasDet rest r.st r.pluginData
      (r.buffer :: q.1, q.2.1, q.2.2)

/-- State of the SDL2 (float) output path of AudioSdl: the stopped flag,
the period buffer m_outBuf, and the current buffer frame count and
position. -/
structure Sdl2State where
  stopped : Bool
  outBuf : List SampleFrame
  currentBufferFramesCount : ℕ
  currentBufferFramePos : ℕ
  deriving Repr, DecidableEq

/-- Scale one frame by the master gain, both channels multiplied by the
gain as in the per-frame loop of the SDL2 callback. -/
def applyGain (gain : ℚ) (fr : SampleFrame) : SampleFrame :=
  (fr.1 * gain, fr.2 * gain)

/-- The while loop of the SDL2 float path of sdlAudioCallback.  The
engine is modelled as the list of period buffers successive getNextBuffer
calls return; an exhausted list or an empty head is the zero-frame
return.  len counts requested frames.  When the buffer position is zero
a period is pulled; a zero-frame pull zero-fills the whole remaining
request and returns.  Otherwise the master gain is applied in place to
the frames about to be copied, they are copied out, and the position
advances modulo the buffer frame count.  The guard on a zero copy size
returns early; it is unreachable while the position stays below the
frame count. -/
def sdl2Loop (gain : ℚ) (pulls : List (List SampleFrame)) (st : Sdl2State)
    (len : ℕ) : List SampleFrame × Sdl2State × List (List SampleFrame) :=
  if _hlen : len = 0 then ([], st, pulls)
  else
    let pulled : Option (Sdl2State × List (List SampleFrame)) :=
      if st.currentBufferFramePos = 0 then
        match pulls with
        | [] => none
        | b :: rest =>
            if b.length = 0 then none
            else some ({ st with outBuf := b, currentBufferFramesCount := b.length }, rest)
      else some (st, pulls)
    match pulled with
    | none => (List.replicate len zeroFrame, st, pulls.drop 1)
    | some (st1, pulls1) =>
        let m := min len (st1.currentBufferFramesCount - st1.currentBufferFramePos)
        if _hm : m = 0 then ([], st1, pulls1)
        else
          let scaled :=
            ((st1.outBuf.drop st1.currentBufferFramePos).take m).map (applyGain gain)
          let outBuf2 :=
            st1.outBuf.take st1.currentBufferFramePos ++ scaled ++
              st1.outBuf.drop (st1.currentBufferFramePos + m)
          let st2 :=
            { st1 with
              outBuf := outBuf2
              currentBufferFramePos :=
                (st1.currentBufferFramePos + m) % st1.currentBufferFramesCount }
          let r := sdl2Loop gain pulls1 st2 (len - m)
          (scaled ++ r.1, r.2.1, r.2.2)
  termination_by len
  decreasing_by omega

/-- The SDL2 float path of sdlAudioCallback: a stopped device writes
silence immediately, otherwise the pull-and-copy loop runs. -/
def sdl2AudioCallback (gain : ℚ) (pulls : List (List SampleFrame))
    (st : Sdl2State) (len : ℕ) :
    List SampleFrame × Sdl2State × List (List SampleFrame) :=
  if st.stopped = true then (List.replicate len zeroFrame, st, pulls)
  else sdl2Loop gain pulls st len

/-- State of the SDL 1.2 (fixed-point) output path of AudioSdl: the
stopped flag, the converted sample buffer, its size and the position
within it.  Sizes and positions count 16-bit samples; the byte counts of
the source are all multiples of the sample size. -/
structure Sdl1State where
  stopped : Bool
  convertedBuf : List ℤ
  convertedBufSize : ℕ
  convertedBufPos : ℕ
  deriving Repr, DecidableEq

/-- The while loop of the SDL 1.2 fixed-point path of sdlAudioCallback.
convertToS16 of the AudioDevice base class (outside these sources) is a
parameter converting a period of float frames under the master gain to
interleaved 16-bit samples.  A zero-frame pull marks the device stopped,
zero-fills the whole remaining request and returns. -/
def sdl1Loop (convertToS16 : List SampleFrame → ℚ → List ℤ) (gain : ℚ)
    (pulls : List (List SampleFrame)) (st : Sdl1State) (len : ℕ) :
    List ℤ × Sdl1State × List (List SampleFrame) :=
  if _hlen : len = 0 then ([], st, pulls)
  else
    let pulled : Option (Sdl1State × List (List SampleFrame)) :=
      if st.convertedBufPos = 0 then
        match pulls with
        | [] => none
        | b :: rest =>
            if b.length = 0 then none
            else some ({ st with
                          convertedBuf := convertToS16 b gain
                          convertedBufSize := b.length * 2 }, rest)
      else some (st, pulls)
    match pulled with
    | none =>
        (List.replicate len (0 : ℤ), { st with stopped := true }, pulls.drop 1)
    | some (st1, pulls1) =>
        let m := min len (st1.convertedBufSize - st1.convertedBufPos)
        if _hm : m = 0 then ([], st1, pulls1)
        else
          let out := (st1.convertedBuf.drop st1.convertedBufPos).take m
          let st2 :=
            { st1 with
              convertedBufPos := (st1.convertedBufPos + m) % st1.convertedBufSize }
          let r := sdl1Loop convertToS16 gain pulls1 st2 (len - m)
          (out ++ r.1, r.2.1, r.2.2)
  termination_by len
  decreasing_by omega

/-- The SDL 1.2 fixed-point path of sdlAudioCallback: a stopped device
writes silence immediately without querying the engine, otherwise the
pull-convert-copy loop runs. -/
def sdl1AudioCallback (convertToS16 : List SampleFrame → ℚ → List ℤ)
    (gain : ℚ) (pulls : List (List SampleFrame)) (st : Sdl1State)
    (len : ℕ) : List ℤ × Sdl1State × List (List SampleFrame) :=
  if st.stopped = true then (List.replicate len (0 : ℤ), st, pulls)
  else sdl1Loop convertToS16 gain pulls st len

/-- A concrete Sample render model for evaluation: always produces
audio, advances the cursor by the frame count and renders unit frames. -/
def advancePlay : PlaybackState → ℕ → ℚ → ℕ → PlayResult := fun ps frames _ _ =>
  { produced := true
    state := { ps with frameIndex := ps.frameIndex + frames }
    rendered := List.replicate frames ((1:ℚ), (1:ℚ)) }

/-- A concrete Sample render model for evaluation: reports exhaustion,
leaves the state untouched and renders nothing. -/
def exhaustedPlay : PlaybackState → ℕ → ℚ → ℕ → PlayResult := fun ps _ _ _ =>
  { produced := false, state := ps, rendered := [] }

/-- The fresh 100-frame instrument state with stutter mode enabled. -/
def afpStutterState : AfpState := { initAfpState 100 with stutterModel := true }

/-- A concrete unfinished note with no plugin data at the given
frequency, four frames in the period at offset two. -/
def freshNote (freq : ℚ) : NoteInput :=
  { frequency := freq, framesLeft := 4, offset := 2, isFinished := false,
    hasDetuningInfo := false, pluginData := none }

/-- A concrete six-frame working buffer holding unit frames. -/
def testBuf : List SampleFrame := List.replicate 6 ((1:ℚ), (1:ℚ))

/-- A concrete PlaybackState with its cursor at frame 100 (the end frame
of the 100-frame fixtures), forward direction, linear resampling. -/
def pdAtEnd : PlaybackState :=
  { varyingPitch := false, srcmode := 4, frameIndex := 100, backwards := false }

/-- A concrete float-to-16-bit conversion model for evaluation: emits
two zero samples per frame. -/
def convFix : List SampleFrame → ℚ → List ℤ := fun b _ =>
  List.replicate (b.length * 2) 0

/-- A fresh SDL2 device state: running, empty period buffer. -/
def sdl2Fresh : Sdl2State :=
  { stopped := false, outBuf := [], currentBufferFramesCount := 0,
    currentBufferFramePos := 0 }

/-- A fresh SDL 1.2 device state: running, empty converted buffer. -/
def sdl1Fresh : Sdl1State :=
  { stopped := false, convertedBuf := [], convertedBufSize := 0,
    convertedBufPos := 0 }

/-- The SDL 1.2 device state after a pseudo-stop. -/
def sdl1Stopped : Sdl1State :=
  { stopped := true, convertedBuf := [], convertedBufSize := 0,
    convertedBufPos := 0 }

/-- Effect wetLevel: the value of the wet/dry model (Effect.h). -/
def wetLevel (wetDryValue : ℚ) : ℚ := wetDryValue

/-- Effect dryLevel: one minus the value of the wet/dry model
(Effect.h). -/
def dryLevel (wetDryValue : ℚ) : ℚ := 1 - wetDryValue

theorem clamp01_nonneg (x : ℚ) : 0 ≤ clamp01 x :=
  le_max_left 0 _

theorem clamp01_le_one (x : ℚ) : clamp01 x ≤ 1 :=
  max_le (by norm_num) (min_le_right x 1)

theorem clamp01_eq_self {x : ℚ} (h0 : 0 ≤ x) (h1 : x ≤ 1) : clamp01 x = x := by
  unfold clamp01
  rw [min_eq_left h1, max_eq_right h0]

theorem clamp01_of_nonneg {x : ℚ} (h0 : 0 ≤ x) : clamp01 x = min x 1 := by
  unfold clamp01
  rw [max_eq_right (le_min h0 (by norm_num))]

/-- Soundness of steps two to four of the startPointChanged resolution
(loop below end, loop up to start, end nudged off start), for a start
already at or below end: afterwards either the markers are strictly
ordered or all three sit at 1. -/
theorem resolveSteps_sound (s e l l1 l2 e2 : ℚ)
    (hs0 : 0 ≤ s) (hs1 : s ≤ 1) (he0 : 0 ≤ e) (he1 : e ≤ 1)
    (hl0 : 0 ≤ l) (hl1 : l ≤ 1) (hse : s ≤ e)
    (h1 : l1 = if l ≥ e then clamp01 (max (e - 1/1000) 0) else l)
    (h2 : l2 = if l1 < s then clamp01 s else l1)
    (h3 : e2 = if s = e then clamp01 (min (e + 1/1000) 1) else e) :
    (0 ≤ e2 ∧ e2 ≤ 1 ∧ 0 ≤ l2 ∧ l2 ≤ 1) ∧
      ((s < e2 ∧ s ≤ l2 ∧ l2 < e2) ∨ (s = 1 ∧ e2 = 1 ∧ l2 = 1)) := by
  have hcs : clamp01 s = s := clamp01_eq_self hs0 hs1
  have he2v : e2 = if s = e then min (e + 1/1000) 1 else e := by
    rw [h3, clamp01_of_nonneg (x := min (e + 1/1000) 1) (le_min (by linarith) (by norm_num)),
      min_assoc, min_self]
  by_cases hA : l ≥ e
  · rcases le_total (e - 1/1000) 0 with hz | hz
    · have hl1v : l1 = 0 := by
        rw [h1, if_pos hA, max_eq_right hz, clamp01_eq_self le_rfl (by norm_num)]
      by_cases hB : l1 < s
      · have hl2v : l2 = s := by rw [h2, if_pos hB, hcs]
        by_cases hC : s = e
        · have he2 : e2 = e + 1/1000 := by
            rw [he2v, if_pos hC, min_eq_left (by linarith)]
          exact ⟨⟨by linarith, by linarith, by linarith, by linarith⟩,
            Or.inl ⟨by linarith, by linarith, by linarith⟩⟩
        · have hse' : s < e := lt_of_le_of_ne hse hC
          have he2 : e2 = e := by rw [he2v, if_neg hC]
          exact ⟨⟨by linarith, by linarith, by linarith, by linarith⟩,
            Or.inl ⟨by linarith, by linarith, by linarith⟩⟩
      · have hl2v : l2 = 0 := by rw [h2, if_neg hB, hl1v]
        have hs0' : s ≤ 0 := by rw [hl1v] at hB; linarith [not_lt.mp hB]
        by_cases hC : s = e
        · have he2 : e2 = e + 1/1000 := by
            rw [he2v, if_pos hC, min_eq_left (by linarith)]
          exact ⟨⟨by linarith, by linarith, by linarith, by linarith⟩,
            Or.inl ⟨by linarith, by linarith, by linarith⟩⟩
        · have hse' : s < e := lt_of_le_of_ne hse hC
          have he2 : e2 = e := by rw [he2v, if_neg hC]
          exact ⟨⟨by linarith, by linarith, by linarith, by linarith⟩,
            Or.inl ⟨by linarith, by linarith, by linarith⟩⟩
    · have hl1v : l1 = e - 1/1000 := by
        rw [h1, if_pos hA, max_eq_left hz, clamp01_eq_self (by linarith) (by linarith)]
      by_cases hB : l1 < s
      · have hl2v : l2 = s := by rw [h2, if_pos hB, hcs]
        by_cases hC : s = e
        · rcases lt_or_ge e 1 with he1' | he1'
          · have he2 : e2 ≤ 1 ∧ e < e2 := by
              rw [he2v, if_pos hC]
              constructor
              · exact min_le_right _ _
              · exact lt_min (by linarith) he1'
            exact ⟨⟨by linarith [he2.2], he2.1, by linarith, by linarith⟩,
              Or.inl ⟨by linarith [he2.2], by linarith, by linarith [he2.2]⟩⟩
          · have hee : e = 1 := le_antisymm he1 he1'
            have he2 : e2 = 1 := by
              rw [he2v, if_pos hC, min_eq_right (by linarith)]
            exact ⟨⟨by linarith, by linarith, by linarith, by linarith⟩,
              Or.inr ⟨by rw [hC, hee], he2, by rw [hl2v, hC, hee]⟩⟩
        · have hse' : s < e := lt_of_le_of_ne hse hC
          have he2 : e2 = e := by rw [he2v, if_neg hC]
          exact ⟨⟨by linarith, by linarith, by linarith, by linarith⟩,
            Or.inl ⟨by linarith, by linarith, by linarith⟩⟩
      · have hl2v : l2 = e - 1/1000 := by rw [h2, if_neg hB, hl1v]
        have hBs : s ≤ e - 1/1000 := by rw [hl1v] at hB; exact not_lt.mp hB
        have hC : ¬ s = e := by intro hc; rw [hc] at hBs; linarith
        have he2 : e2 = e := by rw [he2v, if_neg hC]
        exact ⟨⟨by linarith, by linarith, by linarith, by linarith⟩,
          Or.inl ⟨by linarith, by linarith, by linarith⟩⟩
  · have hle : l < e := lt_of_not_ge hA
    have hl1v : l1 = l := by rw [h1, if_neg hA]
    by_cases hB : l1 < s
    · have hl2v : l2 = s := by rw [h2, if_pos hB, hcs]
      by_cases hC : s = e
      · rcases lt_or_ge e 1 with he1' | he1'
        · have he2 : e2 ≤ 1 ∧ e < e2 := by
            rw [he2v, if_pos hC]
            exact ⟨min_le_right _ _, lt_min (by linarith) he1'⟩
          exact ⟨⟨by linarith [he2.2], he2.1, by linarith, by linarith⟩,
            Or.inl ⟨by linarith [he2.2], by linarith, by linarith [he2.2]⟩⟩
        · have hee : e = 1 := le_antisymm he1 he1'
          have he2 : e2 = 1 := by
            rw [he2v, if_pos hC, min_eq_right (by linarith)]
          exact ⟨⟨by linarith, by linarith, by linarith, by linarith⟩,
            Or.inr ⟨by rw [hC, hee], he2, by rw [hl2v, hC, hee]⟩⟩
      · have hse' : s < e := lt_of_le_of_ne hse hC
        have he2 : e2 = e := by rw [he2v, if_neg hC]
        exact ⟨⟨by linarith, by linarith, by linarith, by linarith⟩,
          Or.inl ⟨by linarith, by linarith, by linarith⟩⟩
    · have hl2v : l2 = l := by rw [h2, if_neg hB, hl1v]
      have hsl : s ≤ l := by rw [hl1v] at hB; exact not_lt.mp hB
      have hC : ¬ s = e := by intro hc; rw [hc] at hsl; linarith
      have he2 : e2 = e := by rw [he2v, if_neg hC]
      exact ⟨⟨by linarith, by linarith, by linarith, by linarith⟩,
        Or.inl ⟨by linarith, by linarith, by linarith⟩⟩

/-- Soundness of the full startPointChanged resolution on a triple of
in-range model values: the result is in range and either strictly
ordered or saturated at 1. -/
theorem resolveStartEnd_sound (s e l : ℚ)
    (hs0 : 0 ≤ s) (hs1 : s ≤ 1) (he0 : 0 ≤ e) (he1 : e ≤ 1)
    (hl0 : 0 ≤ l) (hl1 : l ≤ 1) :
    (0 ≤ (resolveStartEnd s e l).1 ∧ (resolveStartEnd s e l).1 ≤ 1 ∧
      0 ≤ (resolveStartEnd s e l).2.1 ∧ (resolveStartEnd s e l).2.1 ≤ 1 ∧
      0 ≤ (resolveStartEnd s e l).2.2 ∧ (resolveStartEnd s e l).2.2 ≤ 1) ∧
      (((resolveStartEnd s e l).1 < (resolveStartEnd s e l).2.1 ∧
        (resolveStartEnd s e l).1 ≤ (resolveStartEnd s e l).2.2 ∧
        (resolveStartEnd s e l).2.2 < (resolveStartEnd s e l).2.1) ∨
       ((resolveStartEnd s e l).1 = 1 ∧ (resolveStartEnd s e l).2.1 = 1 ∧
        (resolveStartEnd s e l).2.2 = 1)) := by
  by_cases hswap : s > e
  · have hr : resolveStartEnd s e l =
        (e, (if e = s then clamp01 (min (s + 1/1000) 1) else s),
          (if (if l ≥ s then clamp01 (max (s - 1/1000) 0) else l) < e
            then clamp01 e
            else (if l ≥ s then clamp01 (max (s - 1/1000) 0) else l))) := by
      simp only [resolveStartEnd, if_pos hswap, clamp01_eq_self he0 he1,
        clamp01_eq_self hs0 hs1]
    rw [hr]
    obtain ⟨hb, hg⟩ := resolveSteps_sound e s l _ _ _ he0 he1 hs0 hs1 hl0 hl1
      (le_of_lt hswap) rfl rfl rfl
    exact ⟨⟨he0, he1, hb.1, hb.2.1, hb.2.2.1, hb.2.2.2⟩, hg⟩
  · have hr : resolveStartEnd s e l =
        (s, (if s = e then clamp01 (min (e + 1/1000) 1) else e),
          (if (if l ≥ e then clamp01 (max (e - 1/1000) 0) else l) < s
            then clamp01 s
            else (if l ≥ e then clamp01 (max (e - 1/1000) 0) else l))) := by
      simp only [resolveStartEnd, if_neg hswap]
    rw [hr]
    obtain ⟨hb, hg⟩ := resolveSteps_sound s e l _ _ _ hs0 hs1 he0 he1 hl0 hl1
      (le_of_not_lt hswap) rfl rfl rfl
    exact ⟨⟨hs0, hs1, hb.1, hb.2.1, hb.2.2.1, hb.2.2.2⟩, hg⟩

/-- Soundness of the loopPointChanged resolution on a triple of in-range
model values: the result is in range and strictly ordered. -/
theorem resolveLoop_sound (s e l : ℚ)
    (hs0 : 0 ≤ s) (hs1 : s ≤ 1) (he0 : 0 ≤ e) (he1 : e ≤ 1)
    (hl0 : 0 ≤ l) (hl1 : l ≤ 1) :
    (0 ≤ (resolveLoop s e l).1 ∧ (resolveLoop s e l).1 ≤ 1 ∧
      0 ≤ (resolveLoop s e l).2.1 ∧ (resolveLoop s e l).2.1 ≤ 1 ∧
      0 ≤ (resolveLoop s e l).2.2 ∧ (resolveLoop s e l).2.2 ≤ 1) ∧
      ((resolveLoop s e l).1 < (resolveLoop s e l).2.1 ∧
        (resolveLoop s e l).1 ≤ (resolveLoop s e l).2.2 ∧
        (resolveLoop s e l).2.2 < (resolveLoop s e l).2.1) := by
  have hc999 : clamp01 (1 - 1/1000) = 1 - 1/1000 :=
    clamp01_eq_self (by norm_num) (by norm_num)
  by_cases hA : l ≥ e
  · have he2v : clamp01 (l + 1/1000) = min (l + 1/1000) 1 :=
      clamp01_of_nonneg (by linarith)
    by_cases hB : clamp01 (l + 1/1000) = 1
    · have hr : resolveLoop s e l =
          ((if clamp01 (1 - 1/1000) < s then clamp01 (clamp01 (1 - 1/1000)) else s),
            clamp01 (l + 1/1000), clamp01 (1 - 1/1000)) := by
        simp only [resolveLoop, if_pos hA, if_pos hB]
      rw [hr]
      simp only [hc999, hB]
      by_cases hD : (1 - 1/1000 : ℚ) < s
      · rw [if_pos hD]
        exact ⟨⟨by norm_num, by norm_num, by norm_num, by norm_num, by norm_num,
          by norm_num⟩, by norm_num, by norm_num, by norm_num⟩
      · rw [if_neg hD]
        have hD' : s ≤ 1 - 1/1000 := le_of_not_lt hD
        exact ⟨⟨hs0, hs1, by norm_num, by norm_num, by norm_num, by norm_num⟩,
          by linarith, hD', by norm_num⟩
    · have hlt : l + 1/1000 < 1 := by
        by_contra hge
        exact hB (by rw [he2v, min_eq_right (by linarith)])
      have he2 : clamp01 (l + 1/1000) = l + 1/1000 := by
        rw [he2v, min_eq_left (by linarith)]
      have hswapped : resolveLoop s e l =
          ((if l < s then clamp01 l else s), (l + 1/1000 : ℚ), l) := by
        simp only [resolveLoop, if_pos hA, he2, if_neg (ne_of_lt hlt)]
      rw [hswapped]
      by_cases hD : l < s
      · rw [if_pos hD, clamp01_eq_self hl0 hl1]
        exact ⟨⟨hl0, hl1, by linarith, by linarith, hl0, hl1⟩,
          by linarith, le_rfl, by linarith⟩
      · rw [if_neg hD]
        have hD' : s ≤ l := le_of_not_lt hD
        exact ⟨⟨hs0, hs1, by linarith, by linarith, hl0, hl1⟩,
          by linarith, hD', by linarith⟩
  · have hle : l < e := lt_of_not_ge hA
    have hr : resolveLoop s e l =
        ((if l < s then clamp01 l else s), e, l) := by
      simp only [resolveLoop, if_neg hA]
    rw [hr]
    by_cases hD : l < s
    · rw [if_pos hD, clamp01_eq_self hl0 hl1]
      exact ⟨⟨hl0, hl1, he0, he1, hl0, hl1⟩, by linarith, le_rfl, by linarith⟩
    · rw [if_neg hD]
      have hD' : s ≤ l := le_of_not_lt hD
      exact ⟨⟨hs0, hs1, he0, he1, hl0, hl1⟩, by linarith, hD', by linarith⟩

/-- startPointChanged keeps the models in range and leaves them strictly
ordered or saturated. -/
theorem startPointChanged_good (st : AfpState) (h : InRange01 st) :
    InRange01 (startPointChanged st) ∧
      (MarkersOrdered (startPointChanged st) ∨
        MarkersSaturated (startPointChanged st)) := by
  obtain ⟨h1, h2, h3, h4, h5, h6⟩ := h
  exact resolveStartEnd_sound st.startPoint st.endPoint st.loopPoint h1 h2 h3 h4 h5 h6

/-- loopPointChanged keeps the models in range and leaves them strictly
ordered. -/
theorem loopPointChanged_good (st : AfpState) (h : InRange01 st) :
    InRange01 (loopPointChanged st) ∧ MarkersOrdered (loopPointChanged st) := by
  obtain ⟨h1, h2, h3, h4, h5, h6⟩ := h
  exact resolveLoop_sound st.startPoint st.endPoint st.loopPoint h1 h2 h3 h4 h5 h6

/-- Every point edit from an in-range state yields an in-range state
that is strictly ordered or saturated. -/
theorem applyPointOp_good (op : PointOp) (st : AfpState) (h : InRange01 st) :
    InRange01 (applyPointOp op st) ∧
      (MarkersOrdered (applyPointOp op st) ∨
        MarkersSaturated (applyPointOp op st)) := by
  obtain ⟨h1, h2, h3, h4, h5, h6⟩ := h
  cases op with
  | editStart v =>
      exact startPointChanged_good { st with startPoint := clamp01 v }
        ⟨clamp01_nonneg v, clamp01_le_one v, h3, h4, h5, h6⟩
  | editEnd v =>
      exact startPointChanged_good { st with endPoint := clamp01 v }
        ⟨h1, h2, clamp01_nonneg v, clamp01_le_one v, h5, h6⟩
  | editLoop v =>
      obtain ⟨hin, hord⟩ := loopPointChanged_good { st with loopPoint := clamp01 v }
        ⟨h1, h2, h3, h4, clamp01_nonneg v, clamp01_le_one v⟩
      exact ⟨hin, Or.inl hord⟩

/-- Any sequence of point edits from an in-range state yields an
in-range state that is strictly ordered or saturated, provided the start
state already was. -/
theorem runPointOps_good (ops : List PointOp) (st : AfpState)
    (h : InRange01 st)
    (hg : MarkersOrdered st ∨ MarkersSaturated st) :
    InRange01 (runPointOps ops st) ∧
      (MarkersOrdered (runPointOps ops st) ∨
        MarkersSaturated (runPointOps ops st)) := by
  induction ops generalizing st with
  | nil => exact ⟨h, hg⟩
  | cons op ops ih =>
      have hstep := applyPointOp_good op st h
      exact ih (applyPointOp op st) hstep.1 hstep.2

/-- C1 (amended): after any sequence of setStart, setEnd and setLoop
calls from the freshly constructed state, the normalized markers stay in
the model range and satisfy start below end with loop in the interval
from start below end, except that an edit pushing start onto an end
marker already at 1.0 leaves the degenerate saturated state where start,
end and loop all equal 1 (the nudge of end is clamped at the top of the
model range there). -/
theorem afp_pointEdit_invariant (n : ℕ) (ops : List PointOp) :
    InRange01 (runPointOps ops (initAfpState n)) ∧
      (MarkersOrdered (runPointOps ops (initAfpState n)) ∨
        MarkersSaturated (runPointOps ops (initAfpState n))) := by
  refine runPointOps_good ops (initAfpState n) ?_ ?_
  · exact ⟨show (0:ℚ) ≤ 0 from le_rfl, show (0:ℚ) ≤ 1 by norm_num,
      show (0:ℚ) ≤ 1 by norm_num, show (1:ℚ) ≤ 1 from le_rfl,
      show (0:ℚ) ≤ 0 from le_rfl, show (0:ℚ) ≤ 1 by norm_num⟩
  · exact Or.inl ⟨show (0:ℚ) < 1 by norm_num, show (0:ℚ) ≤ 0 from le_rfl,
      show (0:ℚ) < 1 by norm_num⟩

/-- C1 counterexample: a single setStart of 1.0 from the freshly
constructed state (end marker at 1.0) drives start, end and loop all to
1, so the claimed invariant start below end fails. -/
theorem afp_pointEdit_invariant_cex :
    ¬ MarkersOrdered (runPointOps [PointOp.editStart 1] (initAfpState 100)) := by
  have h1 : clamp01 (1:ℚ) = 1 := by norm_num [clamp01]
  have hr : resolveStartEnd (clamp01 1) (1:ℚ) 0 = (1, 1, 1) := by
    rw [h1]
    norm_num [resolveStartEnd, clamp01]
  intro hord
  obtain ⟨hlt, -, -⟩ := hord
  have hs : (runPointOps [PointOp.editStart 1] (initAfpState 100)).startPoint
      = (resolveStartEnd (clamp01 1) 1 0).1 := rfl
  have he : (runPointOps [PointOp.editStart 1] (initAfpState 100)).endPoint
      = (resolveStartEnd (clamp01 1) 1 0).2.1 := rfl
  rw [hs, he, hr] at hlt
  exact lt_irrefl 1 hlt

/-- C9: with a 100-frame sample, the point edit setEnd 0 from the fresh
state leaves normalized start 0 strictly below normalized end 0.001 (the
epsilon nudge), yet the recomputed frame markers collapse: startFrame
equals endFrame, a zero-length playable region in frame units, because
the fixed 0.001 nudge is below one frame of normalized length. -/
theorem afp_short_sample_frame_collapse :
    (setEnd 0 (initAfpState 100)).startPoint < (setEnd 0 (initAfpState 100)).endPoint ∧
      (setEnd 0 (initAfpState 100)).startFrame = (setEnd 0 (initAfpState 100)).endFrame := by
  have hr : resolveStartEnd (0:ℚ) (clamp01 0) 0 = (0, 1/1000, 0) := by
    norm_num [resolveStartEnd, clamp01]
  constructor
  · show (resolveStartEnd (0:ℚ) (clamp01 0) 0).1 < (resolveStartEnd (0:ℚ) (clamp01 0) 0).2.1
    rw [hr]
    norm_num
  · show ratTrunc ((resolveStartEnd (0:ℚ) (clamp01 0) 0).1 * ((100:ℕ) : ℚ))
        = ratTrunc ((resolveStartEnd (0:ℚ) (clamp01 0) 0).2.1 * ((100:ℕ) : ℚ))
    rw [hr]
    norm_num [ratTrunc]

/-- C8 (amended): on a state whose markers satisfy the post-edit
invariant (start strictly below end, loop in the half-open interval) and
whose frame markers agree with the normalized values, calling setStart
with the current start value leaves the three normalized markers and the
recomputed frame markers unchanged. -/
theorem afp_setStart_idempotent (st : AfpState)
    (hin : InRange01 st) (hord : MarkersOrdered st) (hfc : FrameConsistent st) :
    (setStart st.startPoint st).startPoint = st.startPoint ∧
    (setStart st.startPoint st).endPoint = st.endPoint ∧
    (setStart st.startPoint st).loopPoint = st.loopPoint ∧
    (setStart st.startPoint st).startFrame = st.startFrame ∧
    (setStart st.startPoint st).endFrame = st.endFrame ∧
    (setStart st.startPoint st).loopStartFrame = st.loopStartFrame ∧
    (setStart st.startPoint st).loopEndFrame = st.loopEndFrame := by
  obtain ⟨h1, h2, h3, h4, h5, h6⟩ := hin
  obtain ⟨ho1, ho2, ho3⟩ := hord
  obtain ⟨hf1, hf2, hf3, hf4⟩ := hfc
  have hcl : clamp01 st.startPoint = st.startPoint := clamp01_eq_self h1 h2
  have hset : setStart st.startPoint st = startPointChanged st := by
    unfold setStart
    rw [hcl]
  have hres : resolveStartEnd st.startPoint st.endPoint st.loopPoint
      = (st.startPoint, st.endPoint, st.loopPoint) := by
    have hA : ¬ (st.startPoint > st.endPoint) := not_lt.mpr (le_of_lt ho1)
    have hB : ¬ (st.loopPoint ≥ st.endPoint) := not_le.mpr ho3
    have hC : ¬ (st.loopPoint < st.startPoint) := not_lt.mpr ho2
    have hD : ¬ (st.startPoint = st.endPoint) := ne_of_lt ho1
    simp only [resolveStartEnd, if_neg hA, if_neg hB, if_neg hC, if_neg hD]
  rw [hset]
  refine ⟨?_, ?_, ?_, ?_, ?_, ?_, ?_⟩
  · show (resolveStartEnd st.startPoint st.endPoint st.loopPoint).1 = st.startPoint
    rw [hres]
  · show (resolveStartEnd st.startPoint st.endPoint st.loopPoint).2.1 = st.endPoint
    rw [hres]
  · show (resolveStartEnd st.startPoint st.endPoint st.loopPoint).2.2 = st.loopPoint
    rw [hres]
  · show ratTrunc ((resolveStartEnd st.startPoint st.endPoint st.loopPoint).1 *
        (st.sampleSize : ℚ)) = st.startFrame
    rw [hres]
    exact hf1.symm
  · show ratTrunc ((resolveStartEnd st.startPoint st.endPoint st.loopPoint).2.1 *
        (st.sampleSize : ℚ)) = st.endFrame
    rw [hres]
    exact hf2.symm
  · show ratTrunc ((resolveStartEnd st.startPoint st.endPoint st.loopPoint).2.2 *
        (st.sampleSize : ℚ)) = st.loopStartFrame
    rw [hres]
    exact hf3.symm
  · show ratTrunc ((resolveStartEnd st.startPoint st.endPoint st.loopPoint).2.1 *
        (st.sampleSize : ℚ)) = st.loopEndFrame
    rw [hres]
    exact hf4.symm

/-- C8 counterexample: on the state with start, end and loop all at 0.5,
setStart with the current start value 0.5 nudges the end marker to
0.501, so the operation is not a no-op on every state of the point
markers. -/
theorem afp_setStart_idempotent_cex :
    ¬ ((setStart afpMidState.startPoint afpMidState).endPoint = afpMidState.endPoint) := by
  have he : (setStart afpMidState.startPoint afpMidState).endPoint
      = (resolveStartEnd (clamp01 (1/2)) ((1:ℚ)/2) (1/2)).2.1 := rfl
  have hr : resolveStartEnd (clamp01 (1/2)) ((1:ℚ)/2) (1/2) = (1/2, 501/1000, 1/2) := by
    norm_num [resolveStartEnd, clamp01]
  rw [he, hr]
  show ¬ ((501:ℚ)/1000 = afpMidState.endPoint)
  show ¬ ((501:ℚ)/1000 = 1/2)
  norm_num

/-- C8 witness: the idempotence theorem applied to the fresh 100-frame
state. -/
theorem afp_setStart_idempotent_witness :
    (InRange01 (initAfpState 100) ∧ MarkersOrdered (initAfpState 100) ∧
      FrameConsistent (initAfpState 100)) ∧
    ((setStart (initAfpState 100).startPoint (initAfpState 100)).startPoint
        = (initAfpState 100).startPoint ∧
      (setStart (initAfpState 100).startPoint (initAfpState 100)).endPoint
        = (initAfpState 100).endPoint ∧
      (setStart (initAfpState 100).startPoint (initAfpState 100)).loopPoint
        = (initAfpState 100).loopPoint ∧
      (setStart (initAfpState 100).startPoint (initAfpState 100)).startFrame
        = (initAfpState 100).startFrame ∧
      (setStart (initAfpState 100).startPoint (initAfpState 100)).endFrame
        = (initAfpState 100).endFrame ∧
      (setStart (initAfpState 100).startPoint (initAfpState 100)).loopStartFrame
        = (initAfpState 100).loopStartFrame ∧
      (setStart (initAfpState 100).startPoint (initAfpState 100)).loopEndFrame
        = (initAfpState 100).loopEndFrame) := by
  have hin : InRange01 (initAfpState 100) :=
    ⟨show (0:ℚ) ≤ 0 from le_rfl, show (0:ℚ) ≤ 1 by norm_num,
      show (0:ℚ) ≤ 1 by norm_num, show (1:ℚ) ≤ 1 from le_rfl,
      show (0:ℚ) ≤ 0 from le_rfl, show (0:ℚ) ≤ 1 by norm_num⟩
  have hord : MarkersOrdered (initAfpState 100) :=
    ⟨show (0:ℚ) < 1 by norm_num, show (0:ℚ) ≤ 0 from le_rfl,
      show (0:ℚ) < 1 by norm_num⟩
  have hfc : FrameConsistent (initAfpState 100) := ⟨rfl, rfl, rfl, rfl⟩
  exact ⟨⟨hin, hord, hfc⟩,
    afp_setStart_idempotent (initAfpState 100) hin hord hfc⟩

/-- C2: for every normalized loop value in the model range, setLoop
resolves conflicts exactly as the spec words it (end pushed to loop plus
0.001 clamped to the model range, loop pulled back to 1 minus 0.001 when
the push lands on 1, start pulled down to loop), and afterwards the
absolute frame markers are recomputed from the resulting normalized
values. -/
theorem afp_setLoop_follows_spec (v : ℚ) (st : AfpState)
    (hv0 : 0 ≤ v) (hv1 : v ≤ 1) :
    (setLoop v st).startPoint = (setLoopSpecWords v st.startPoint st.endPoint).1 ∧
    (setLoop v st).endPoint = (setLoopSpecWords v st.startPoint st.endPoint).2.1 ∧
    (setLoop v st).loopPoint = (setLoopSpecWords v st.startPoint st.endPoint).2.2 ∧
    (setLoop v st).startFrame
      = ratTrunc ((setLoopSpecWords v st.startPoint st.endPoint).1 * (st.sampleSize : ℚ)) ∧
    (setLoop v st).endFrame
      = ratTrunc ((setLoopSpecWords v st.startPoint st.endPoint).2.1 * (st.sampleSize : ℚ)) ∧
    (setLoop v st).loopStartFrame
      = ratTrunc ((setLoopSpecWords v st.startPoint st.endPoint).2.2 * (st.sampleSize : ℚ)) ∧
    (setLoop v st).loopEndFrame
      = ratTrunc ((setLoopSpecWords v st.startPoint st.endPoint).2.1 * (st.sampleSize : ℚ)) := by
  have hcl : clamp01 v = v := clamp01_eq_self hv0 hv1
  have hdef : ∀ x : ℚ, max 0 (min x 1) = clamp01 x := fun x => rfl
  have hc999 : clamp01 (1 - 1/1000 : ℚ) = 1 - 1/1000 :=
    clamp01_eq_self (by norm_num) (by norm_num)
  have htriple : resolveLoop st.startPoint st.endPoint (clamp01 v)
      = setLoopSpecWords v st.startPoint st.endPoint := by
    rw [hcl]
    by_cases hA : v ≥ st.endPoint
    · by_cases hB : clamp01 (v + 1/1000) = 1
      · simp only [resolveLoop, setLoopSpecWords, hdef, if_pos hA, if_pos hB, hc999]
      · simp only [resolveLoop, setLoopSpecWords, hdef, if_pos hA, if_neg hB, hcl]
    · simp only [resolveLoop, setLoopSpecWords, hdef, if_neg hA, hcl]
  refine ⟨?_, ?_, ?_, ?_, ?_, ?_, ?_⟩
  · show (resolveLoop st.startPoint st.endPoint (clamp01 v)).1 = _
    rw [htriple]
  · show (resolveLoop st.startPoint st.endPoint (clamp01 v)).2.1 = _
    rw [htriple]
  · show (resolveLoop st.startPoint st.endPoint (clamp01 v)).2.2 = _
    rw [htriple]
  · show ratTrunc ((resolveLoop st.startPoint st.endPoint (clamp01 v)).1 *
        (st.sampleSize : ℚ)) = _
    rw [htriple]
  · show ratTrunc ((resolveLoop st.startPoint st.endPoint (clamp01 v)).2.1 *
        (st.sampleSize : ℚ)) = _
    rw [htriple]
  · show ratTrunc ((resolveLoop st.startPoint st.endPoint (clamp01 v)).2.2 *
        (st.sampleSize : ℚ)) = _
    rw [htriple]
  · show ratTrunc ((resolveLoop st.startPoint st.endPoint (clamp01 v)).2.1 *
        (st.sampleSize : ℚ)) = _
    rw [htriple]

/-- C2 witness: the setLoop theorem applied with loop value 0.75 on the
fresh 100-frame state. -/
theorem afp_setLoop_follows_spec_witness :
    ((0:ℚ) ≤ 3/4 ∧ (3/4:ℚ) ≤ 1) ∧
    ((setLoop (3/4) (initAfpState 100)).startPoint
        = (setLoopSpecWords (3/4) (initAfpState 100).startPoint (initAfpState 100).endPoint).1 ∧
      (setLoop (3/4) (initAfpState 100)).endPoint
        = (setLoopSpecWords (3/4) (initAfpState 100).startPoint (initAfpState 100).endPoint).2.1 ∧
      (setLoop (3/4) (initAfpState 100)).loopPoint
        = (setLoopSpecWords (3/4) (initAfpState 100).startPoint (initAfpState 100).endPoint).2.2 ∧
      (setLoop (3/4) (initAfpState 100)).startFrame
        = ratTrunc ((setLoopSpecWords (3/4) (initAfpState 100).startPoint
            (initAfpState 100).endPoint).1 * ((initAfpState 100).sampleSize : ℚ)) ∧
      (setLoop (3/4) (initAfpState 100)).endFrame
        = ratTrunc ((setLoopSpecWords (3/4) (initAfpState 100).startPoint
            (initAfpState 100).endPoint).2.1 * ((initAfpState 100).sampleSize : ℚ)) ∧
      (setLoop (3/4) (initAfpState 100)).loopStartFrame
        = ratTrunc ((setLoopSpecWords (3/4) (initAfpState 100).startPoint
            (initAfpState 100).endPoint).2.2 * ((initAfpState 100).sampleSize : ℚ)) ∧
      (setLoop (3/4) (initAfpState 100)).loopEndFrame
        = ratTrunc ((setLoopSpecWords (3/4) (initAfpState 100).startPoint
            (initAfpState 100).endPoint).2.1 * ((initAfpState 100).sampleSize : ℚ))) :=
  ⟨⟨by norm_num, by norm_num⟩,
    afp_setLoop_follows_spec (3/4) (initAfpState 100) (by norm_num) (by norm_num)⟩

/-- C10: dryLevel is the exact complement of wetLevel for every value of
the wet/dry model, so the two always sum to 1. -/
theorem effect_dryLevel_complement (w : ℚ) :
    dryLevel w = 1 - wetLevel w ∧ dryLevel w + wetLevel w = 1 := by
  unfold dryLevel wetLevel
  exact ⟨rfl, by ring⟩

/-- With the magic branch not taken, playNote runs its ordinary body. -/
theorem playNote_not_magic
    (play : PlaybackState → ℕ → ℚ → ℕ → PlayResult)
    (applyRelease : List SampleFrame → List SampleFrame)
    (st : AfpState) (n : NoteInput) (buf : List SampleFrame)
    (hc : ¬ (st.stutterModel = true ∧ n.frequency < 20)) :
    playNote play applyRelease st n buf = playNoteOrdinary play applyRelease st n buf := by
  simp only [playNote, if_neg hc]

/-- C4: with stutter mode on, a playNote call at a frequency below 20
resets the continuation cursor to the start frame with forward
direction, creates no PlaybackState, leaves the working buffer untouched
and renders nothing; with stutter mode off the same call runs the
ordinary body of playNote like any note. -/
theorem afp_playNote_magic_frequency
    (play : PlaybackState → ℕ → ℚ → ℕ → PlayResult)
    (applyRelease : List SampleFrame → List SampleFrame)
    (st : AfpState) (n : NoteInput) (buf : List SampleFrame) :
    (st.stutterModel = true → n.frequency < 20 →
      (playNote play applyRelease st n buf).st.nextPlayStartPoint = st.startFrame ∧
      (playNote play applyRelease st n buf).st.nextPlayBackwards = false ∧
      (playNote play applyRelease st n buf).pluginData = n.pluginData ∧
      (playNote play applyRelease st n buf).buffer = buf) ∧
    (st.stutterModel = false →
      playNote play applyRelease st n buf = playNoteOrdinary play applyRelease st n buf) := by
  constructor
  · intro hs hf
    have hcond : st.stutterModel = true ∧ n.frequency < 20 := ⟨hs, hf⟩
    simp only [playNote, if_pos hcond]
    exact ⟨trivial, trivial, trivial, trivial⟩
  · intro hs
    refine playNote_not_magic play applyRelease st n buf ?_
    rintro ⟨h1, -⟩
    rw [hs] at h1
    exact Bool.false_ne_true h1

/-- C4 witness: the magic-frequency theorem applied at frequency 10 with
stutter on, and at frequency 10 with stutter off. -/
theorem afp_playNote_magic_frequency_witness :
    (afpStutterState.stutterModel = true ∧ (freshNote 10).frequency < 20 ∧
      (playNote advancePlay id afpStutterState (freshNote 10) testBuf).st.nextPlayStartPoint
        = afpStutterState.startFrame ∧
      (playNote advancePlay id afpStutterState (freshNote 10) testBuf).st.nextPlayBackwards
        = false ∧
      (playNote advancePlay id afpStutterState (freshNote 10) testBuf).pluginData
        = (freshNote 10).pluginData ∧
      (playNote advancePlay id afpStutterState (freshNote 10) testBuf).buffer = testBuf) ∧
    ((initAfpState 100).stutterModel = false ∧
      playNote advancePlay id (initAfpState 100) (freshNote 10) testBuf
        = playNoteOrdinary advancePlay id (initAfpState 100) (freshNote 10) testBuf) := by
  have hf : (freshNote 10).frequency < 20 := by norm_num [freshNote]
  refine ⟨⟨rfl, hf, ?_⟩, rfl, ?_⟩
  · exact (afp_playNote_magic_frequency advancePlay id afpStutterState
      (freshNote 10) testBuf).1 rfl hf
  · exact (afp_playNote_magic_frequency advancePlay id (initAfpState 100)
      (freshNote 10) testBuf).2 rfl

/-- The plugin-data creation block leaves the configuration models, the
frame markers and the stutter flag of the instrument untouched. -/
theorem createPlaybackState_fst (st : AfpState) (n : NoteInput) :
    (createPlaybackState st n).1.stutterModel = st.stutterModel ∧
    (createPlaybackState st n).1.loopModel = st.loopModel ∧
    (createPlaybackState st n).1.startFrame = st.startFrame ∧
    (createPlaybackState st n).1.endFrame = st.endFrame := by
  cases hpd : n.pluginData with
  | none =>
      simp only [createPlaybackState, hpd]
      split_ifs <;> refine ⟨?_, ?_, ?_, ?_⟩ <;> trivial
  | some ps =>
      simp only [createPlaybackState, hpd]
      refine ⟨?_, ?_, ?_, ?_⟩ <;> trivial

/-- For a note without plugin data, the created PlaybackState starts
from the continuation cursor, except that a cursor at or past the end
frame is replaced by the start frame with forward direction (stutter
mode). -/
theorem createPlaybackState_fresh (st : AfpState) (n : NoteInput)
    (hpd : n.pluginData = none) (hstut : st.stutterModel = true) :
    (createPlaybackState st n).2.frameIndex
      = (if st.nextPlayStartPoint ≥ st.endFrame then st.startFrame
          else st.nextPlayStartPoint) ∧
    (createPlaybackState st n).2.backwards
      = (if st.nextPlayStartPoint ≥ st.endFrame then false
          else st.nextPlayBackwards) := by
  simp only [createPlaybackState, hpd]
  by_cases hge : st.nextPlayStartPoint ≥ st.endFrame
  · have hc : st.stutterModel = true ∧ st.nextPlayStartPoint ≥ st.endFrame := ⟨hstut, hge⟩
    simp only [if_pos hc, if_pos hge]
    refine ⟨?_, ?_⟩ <;> trivial
  · have hc : ¬ (st.stutterModel = true ∧ st.nextPlayStartPoint ≥ st.endFrame) :=
      fun h => hge h.2
    simp only [if_neg hc, if_neg hge]
    refine ⟨?_, ?_⟩ <;> trivial

/-- The ordinary body of playNote leaves the stutter flag, the loop
mode and the frame markers of the instrument untouched. -/
theorem playNoteOrdinary_st_preserves
    (play : PlaybackState → ℕ → ℚ → ℕ → PlayResult)
    (applyRelease : List SampleFrame → List SampleFrame)
    (st : AfpState) (n : NoteInput) (buf : List SampleFrame) :
    (playNoteOrdinary play applyRelease st n buf).st.stutterModel = st.stutterModel ∧
    (playNoteOrdinary play applyRelease st n buf).st.loopModel = st.loopModel ∧
    (playNoteOrdinary play applyRelease st n buf).st.startFrame = st.startFrame ∧
    (playNoteOrdinary play applyRelease st n buf).st.endFrame = st.endFrame := by
  obtain ⟨c1, c2, c3, c4⟩ := createPlaybackState_fst st n
  unfold playNoteOrdinary
  by_cases hstt : (createPlaybackState st n).1.stutterModel = true
  · simp only [if_pos hstt]
    exact ⟨c1, c2, c3, c4⟩
  · simp only [if_neg hstt]
    exact ⟨c1, c2, c3, c4⟩

/-- With stutter mode on, the ordinary body of playNote persists the
resulting cursor and direction of the plugin-data state it returns as
the continuation point. -/
theorem playNoteOrdinary_stutter_persist
    (play : PlaybackState → ℕ → ℚ → ℕ → PlayResult)
    (applyRelease : List SampleFrame → List SampleFrame)
    (st : AfpState) (n : NoteInput) (buf : List SampleFrame)
    (hstut : st.stutterModel = true) :
    ∃ pd1, (playNoteOrdinary play applyRelease st n buf).pluginData = some pd1 ∧
      (playNoteOrdinary play applyRelease st n buf).st.nextPlayStartPoint = pd1.frameIndex ∧
      (playNoteOrdinary play applyRelease st n buf).st.nextPlayBackwards = pd1.backwards := by
  have hs1 : (createPlaybackState st n).1.stutterModel = true := by
    rw [(createPlaybackState_fst st n).1]
    exact hstut
  unfold playNoteOrdinary
  simp only [hs1, eq_self_iff_true, if_true]
  exact ⟨_, rfl, rfl, rfl⟩

/-- On an unfinished note the ordinary body of playNote stores the state
returned by the Sample render call into the plugin-data slot, the render
call starting from the created (or existing) PlaybackState. -/
theorem playNoteOrdinary_pluginData_eq
    (play : PlaybackState → ℕ → ℚ → ℕ → PlayResult)
    (applyRelease : List SampleFrame → List SampleFrame)
    (st : AfpState) (n : NoteInput) (buf : List SampleFrame)
    (hfin : n.isFinished = false) :
    (playNoteOrdinary play applyRelease st n buf).pluginData
      = some (play (createPlaybackState st n).2 n.framesLeft n.frequency
          (createPlaybackState st n).1.loopModel).state := by
  unfold playNoteOrdinary
  simp only [hfin, eq_self_iff_true, if_true]
  by_cases hp : (play (createPlaybackState st n).2 n.framesLeft n.frequency
      (createPlaybackState st n).1.loopModel).produced = true
  · by_cases hstt : (createPlaybackState st n).1.stutterModel = true <;>
      simp only [if_pos hp, hstt, if_pos, if_neg, Bool.not_eq_true, eq_self_iff_true,
        if_true, if_false]
  · by_cases hstt : (createPlaybackState st n).1.stutterModel = true <;>
      simp only [if_neg hp, hstt, eq_self_iff_true, if_true, if_false]

/-- C3: with stutter mode enabled and no magic-frequency reset, a
playNote invocation persists the resulting cursor position and direction
of its PlaybackState as the continuation point, and the next invocation
on a note without a PlaybackState creates one starting from exactly that
persisted cursor and direction, except that a persisted cursor at or
past the end frame is reset to the start frame with forward direction;
the second render call then starts from that created state. -/
theorem afp_playNote_stutter_continuation
    (play : PlaybackState → ℕ → ℚ → ℕ → PlayResult)
    (applyRelease : List SampleFrame → List SampleFrame)
    (st : AfpState) (n1 n2 : NoteInput) (buf1 buf2 : List SampleFrame)
    (hstut : st.stutterModel = true)
    (hf1 : (20:ℚ) ≤ n1.frequency) (hf2 : (20:ℚ) ≤ n2.frequency)
    (hn2 : n2.pluginData = none) :
    (∃ pd1, (playNote play applyRelease st n1 buf1).pluginData = some pd1 ∧
      (playNote play applyRelease st n1 buf1).st.nextPlayStartPoint = pd1.frameIndex ∧
      (playNote play applyRelease st n1 buf1).st.nextPlayBackwards = pd1.backwards) ∧
    (createPlaybackState (playNote play applyRelease st n1 buf1).st n2).2.frameIndex
      = (if (playNote play applyRelease st n1 buf1).st.nextPlayStartPoint ≥
            (playNote play applyRelease st n1 buf1).st.endFrame
          then (playNote play applyRelease st n1 buf1).st.startFrame
          else (playNote play applyRelease st n1 buf1).st.nextPlayStartPoint) ∧
    (createPlaybackState (playNote play applyRelease st n1 buf1).st n2).2.backwards
      = (if (playNote play applyRelease st n1 buf1).st.nextPlayStartPoint ≥
            (playNote play applyRelease st n1 buf1).st.endFrame
          then false
          else (playNote play applyRelease st n1 buf1).st.nextPlayBackwards) ∧
    (n2.isFinished = false →
      (playNote play applyRelease (playNote play applyRelease st n1 buf1).st n2 buf2).pluginData
        = some (play (createPlaybackState (playNote play applyRelease st n1 buf1).st n2).2
            n2.framesLeft n2.frequency
            (createPlaybackState (playNote play applyRelease st n1 buf1).st n2).1.loopModel).state) := by
  have hc1 : ¬ (st.stutterModel = true ∧ n1.frequency < 20) :=
    fun h => absurd h.2 (not_lt.mpr hf1)
  rw [playNote_not_magic play applyRelease st n1 buf1 hc1]
  set r1 := playNoteOrdinary play applyRelease st n1 buf1 with hr1
  obtain ⟨p1, p2, p3, p4⟩ := playNoteOrdinary_st_preserves play applyRelease st n1 buf1
  rw [← hr1] at p1 p2 p3 p4
  have hstut1 : r1.st.stutterModel = true := by rw [p1]; exact hstut
  refine ⟨?_, ?_, ?_, ?_⟩
  · obtain ⟨pd1, hpd1, ha1, ha2⟩ :=
      playNoteOrdinary_stutter_persist play applyRelease st n1 buf1 hstut
    rw [← hr1] at hpd1 ha1 ha2
    exact ⟨pd1, hpd1, ha1, ha2⟩
  · exact (createPlaybackState_fresh r1.st n2 hn2 hstut1).1
  · exact (createPlaybackState_fresh r1.st n2 hn2 hstut1).2
  · intro hfin
    have hc2 : ¬ (r1.st.stutterModel = true ∧ n2.frequency < 20) :=
      fun h => absurd h.2 (not_lt.mpr hf2)
    rw [playNote_not_magic play applyRelease r1.st n2 buf2 hc2]
    exact playNoteOrdinary_pluginData_eq play applyRelease r1.st n2 buf2 hfin

/-- C3 witness: the stutter-continuation theorem applied to two concrete
successive notes at 440 and 330 with stutter on. -/
theorem afp_playNote_stutter_continuation_witness :
    (afpStutterState.stutterModel = true ∧
      (20:ℚ) ≤ (freshNote 440).frequency ∧ (20:ℚ) ≤ (freshNote 330).frequency ∧
      (freshNote 330).pluginData = none) ∧
    ((∃ pd1, (playNote advancePlay id afpStutterState (freshNote 440) testBuf).pluginData
          = some pd1 ∧
        (playNote advancePlay id afpStutterState (freshNote 440) testBuf).st.nextPlayStartPoint
          = pd1.frameIndex ∧
        (playNote advancePlay id afpStutterState (freshNote 440) testBuf).st.nextPlayBackwards
          = pd1.backwards) ∧
      (createPlaybackState (playNote advancePlay id afpStutterState (freshNote 440) testBuf).st
          (freshNote 330)).2.frameIndex
        = (if (playNote advancePlay id afpStutterState (freshNote 440) testBuf).st.nextPlayStartPoint ≥
              (playNote advancePlay id afpStutterState (freshNote 440) testBuf).st.endFrame
            then (playNote advancePlay id afpStutterState (freshNote 440) testBuf).st.startFrame
            else (playNote advancePlay id afpStutterState (freshNote 440) testBuf).st.nextPlayStartPoint) ∧
      (createPlaybackState (playNote advancePlay id afpStutterState (freshNote 440) testBuf).st
          (freshNote 330)).2.backwards
        = (if (playNote advancePlay id afpStutterState (freshNote 440) testBuf).st.nextPlayStartPoint ≥
              (playNote advancePlay id afpStutterState (freshNote 440) testBuf).st.endFrame
            then false
            else (playNote advancePlay id afpStutterState (freshNote 440) testBuf).st.nextPlayBackwards) ∧
      ((freshNote 330).isFinished = false →
        (playNote advancePlay id
            (playNote advancePlay id afpStutterState (freshNote 440) testBuf).st
            (freshNote 330) testBuf).pluginData
          = some (advancePlay
              (createPlaybackState
                (playNote advancePlay id afpStutterState (freshNote 440) testBuf).st
                (freshNote 330)).2
              (freshNote 330).framesLeft (freshNote 330).frequency
              (createPlaybackState
                (playNote advancePlay id afpStutterState (freshNote 440) testBuf).st
                (freshNote 330)).1.loopModel).state)) := by
  have h1 : (20:ℚ) ≤ (freshNote 440).frequency := by norm_num [freshNote]
  have h2 : (20:ℚ) ≤ (freshNote 330).frequency := by norm_num [freshNote]
  exact ⟨⟨rfl, h1, h2, rfl⟩,
    afp_playNote_stutter_continuation advancePlay id afpStutterState
      (freshNote 440) (freshNote 330) testBuf testBuf rfl h1 h2 rfl⟩

/-- On an unfinished ordinary note whose render call reports exhaustion,
playNote zeroes the first framesLeft plus offset frames of the working
buffer, stores the returned state in the plugin-data slot and leaves the
loop mode and stutter flag untouched. -/
theorem playNote_exhausted
    (play : PlaybackState → ℕ → ℚ → ℕ → PlayResult)
    (applyRelease : List SampleFrame → List SampleFrame)
    (st : AfpState) (n : NoteInput) (buf : List SampleFrame) (pd : PlaybackState)
    (hfreq : (20:ℚ) ≤ n.frequency)
    (hpd : n.pluginData = some pd)
    (hfin : n.isFinished = false)
    (hprod : (play pd n.framesLeft n.frequency st.loopModel).produced = false) :
    (playNote play applyRelease st n buf).buffer
      = memsetZero (n.framesLeft + n.offset) buf ∧
    (playNote play applyRelease st n buf).pluginData
      = some (play pd n.framesLeft n.frequency st.loopModel).state ∧
    (playNote play applyRelease st n buf).st.loopModel = st.loopModel ∧
    (playNote play applyRelease st n buf).st.stutterModel = st.stutterModel := by
  have hc : ¬ (st.stutterModel = true ∧ n.frequency < 20) :=
    fun h => absurd h.2 (not_lt.mpr hfreq)
  rw [playNote_not_magic play applyRelease st n buf hc]
  have hcr : createPlaybackState st n = (st, pd) := by
    simp [createPlaybackState, hpd]
  have hnp : ¬ ((play pd n.framesLeft n.frequency st.loopModel).produced = true) := by
    rw [hprod]
    exact Bool.false_ne_true
  unfold playNoteOrdinary
  simp only [hcr, hfin, eq_self_iff_true, if_true, if_neg hnp]
  by_cases hstt : st.stutterModel = true <;>
    simp only [hstt, eq_self_iff_true, if_true, Bool.false_eq_true, if_false] <;>
    refine ⟨?_, ?_, ?_, ?_⟩ <;> trivial

/-- Iterating playNote over any further periods of a note whose
PlaybackState is exhausted (and stays exhausted, with cursor intact)
yields the zero-filled working span for every period, keeps the
plugin-data slot at that state and leaves the loop mode unchanged. -/
theorem playPeriods_exhausted_aux
    (play : PlaybackState → ℕ → ℚ → ℕ → PlayResult)
    (applyRelease : List SampleFrame → List SampleFrame)
    (freq : ℚ) (hasDet : Bool) (lm : ℕ) (pd : PlaybackState)
    (hfreq : (20:ℚ) ≤ freq)
    (hExh : ∀ f, (play pd f freq lm).produced = false ∧ (play pd f freq lm).state = pd) :
    ∀ (periods : List (ℕ × ℕ × List SampleFrame)) (st : AfpState),
      st.loopModel = lm →
      (playPeriods play applyRelease freq hasDet periods st (some pd)).1
          = periods.map (fun p =>
              List.replicate (p.1 + p.2.1) zeroFrame ++ p.2.2.drop (p.1 + p.2.1)) ∧
        (playPeriods play applyRelease freq hasDet periods st (some pd)).2.2 = some pd ∧
        (playPeriods play applyRelease freq hasDet periods st (some pd)).2.1.loopModel = lm := by
  intro periods
  induction periods with
  | nil => intro st hlm; exact ⟨rfl, rfl, hlm⟩
  | cons p rest ih =>
      intro st hlm
      obtain ⟨f, o, buf⟩ := p
      have hprod : (play pd f freq st.loopModel).produced = false := by
        rw [hlm]; exact (hExh f).1
      have hstate : (play pd f freq st.loopModel).state = pd := by
        rw [hlm]; exact (hExh f).2
      obtain ⟨hb, hpl, hlm2, hst2⟩ := playNote_exhausted play applyRelease st
        { frequency := freq, framesLeft := f, offset := o, isFinished := false,
          hasDetuningInfo := hasDet, pluginData := some pd } buf pd
        hfreq rfl rfl hprod
      have hplpd : (playNote play applyRelease st
          { frequency := freq, framesLeft := f, offset := o, isFinished := false,
            hasDetuningInfo := hasDet, pluginData := some pd } buf).pluginData
          = some pd := by
        rw [hpl, hstate]
      simp only [playPeriods, hplpd]
      obtain ⟨ih1, ih2, ih3⟩ := ih (playNote play applyRelease st
        { frequency := freq, framesLeft := f, offset := o, isFinished := false,
          hasDetuningInfo := hasDet, pluginData := some pd } buf).st (hlm2.trans hlm)
      refine ⟨?_, ih2, ih3⟩
      rw [hb, ih1, List.map_cons]
      rfl

/-- C5: for a playNote invocation on an unfinished note whose Sample
render call reports exhaustion and keeps reporting it with the cursor
intact (the behavior of loop mode Off past the end frame), the working
span of the output buffer is zero-filled for that period and for every
subsequent period of the same note. -/
theorem afp_playNote_exhausted_silence
    (play : PlaybackState → ℕ → ℚ → ℕ → PlayResult)
    (applyRelease : List SampleFrame → List SampleFrame)
    (freq : ℚ) (hasDet : Bool) (lm : ℕ) (pd : PlaybackState)
    (periods : List (ℕ × ℕ × List SampleFrame)) (st : AfpState)
    (hfreq : (20:ℚ) ≤ freq)
    (hlm : st.loopModel = lm)
    (hExh : ∀ f, (play pd f freq lm).produced = false ∧ (play pd f freq lm).state = pd) :
    (playPeriods play applyRelease freq hasDet periods st (some pd)).1
      = periods.map (fun p =>
          List.replicate (p.1 + p.2.1) zeroFrame ++ p.2.2.drop (p.1 + p.2.1)) :=
  (playPeriods_exhausted_aux play applyRelease freq hasDet lm pd hfreq hExh
    periods st hlm).1

/-- The SDL2 loop on a zero-length request writes nothing. -/
theorem sdl2Loop_zero (g : ℚ) (pulls : List (List SampleFrame)) (st : Sdl2State) :
    sdl2Loop g pulls st 0 = ([], st, pulls) := by
  simp [sdl2Loop.eq_def]

/-- The SDL 1.2 loop on a zero-length request writes nothing. -/
theorem sdl1Loop_zero (convertToS16 : List SampleFrame → ℚ → List ℤ) (g : ℚ)
    (pulls : List (List SampleFrame)) (st : Sdl1State) :
    sdl1Loop convertToS16 g pulls st 0 = ([], st, pulls) := by
  simp [sdl1Loop.eq_def]

/-- The SDL2 loop at buffer position zero with an exhausted engine
zero-fills the whole remaining request and returns. -/
theorem sdl2Loop_empty (g : ℚ) (st : Sdl2State) (len : ℕ)
    (hlen : len ≠ 0) (hpos : st.currentBufferFramePos = 0) :
    sdl2Loop g [] st len = (List.replicate len zeroFrame, st, []) := by
  rw [sdl2Loop.eq_def]
  simp only [dif_neg hlen, hpos, eq_self_iff_true, if_true, List.drop_nil]

/-- The SDL 1.2 loop at buffer position zero with an exhausted engine
marks the device stopped, zero-fills the whole remaining request and
returns. -/
theorem sdl1Loop_empty (convertToS16 : List SampleFrame → ℚ → List ℤ) (g : ℚ)
    (st : Sdl1State) (len : ℕ)
    (hlen : len ≠ 0) (hpos : st.convertedBufPos = 0) :
    sdl1Loop convertToS16 g [] st len
      = (List.replicate len (0:ℤ), { st with stopped := true }, []) := by
  rw [sdl1Loop.eq_def]
  simp only [dif_neg hlen, hpos, eq_self_iff_true, if_true, List.drop_nil]

/-- C6: when the engine pull returns zero frames, the SDL2 float path
zero-fills the entire requested span and returns; the SDL 1.2
fixed-point path does the same and additionally marks the device
stopped; and once stopped, the fixed-point callback emits silence
without querying the engine at all. -/
theorem sdl_callback_engine_empty
    (convertToS16 : List SampleFrame → ℚ → List ℤ) (g : ℚ)
    (pulls : List (List SampleFrame))
    (st2 : Sdl2State) (st1 st1b : Sdl1State) (len : ℕ)
    (h2stop : st2.stopped = false) (h2pos : st2.currentBufferFramePos = 0)
    (h1stop : st1.stopped = false) (h1pos : st1.convertedBufPos = 0)
    (hlen : 0 < len)
    (hb : st1b.stopped = true) :
    (sdl2AudioCallback g [] st2 len).1 = List.replicate len zeroFrame ∧
    (sdl1AudioCallback convertToS16 g [] st1 len).1 = List.replicate len (0:ℤ) ∧
    (sdl1AudioCallback convertToS16 g [] st1 len).2.1.stopped = true ∧
    sdl1AudioCallback convertToS16 g pulls st1b len
      = (List.replicate len (0:ℤ), st1b, pulls) := by
  have hlen0 : len ≠ 0 := Nat.pos_iff_ne_zero.mp hlen
  have h2ns : ¬ (st2.stopped = true) := by rw [h2stop]; exact Bool.false_ne_true
  have h1ns : ¬ (st1.stopped = true) := by rw [h1stop]; exact Bool.false_ne_true
  refine ⟨?_, ?_, ?_, ?_⟩
  · simp only [sdl2AudioCallback, if_neg h2ns, sdl2Loop_empty g st2 len hlen0 h2pos]
  · simp only [sdl1AudioCallback, if_neg h1ns,
      sdl1Loop_empty convertToS16 g st1 len hlen0 h1pos]
  · simp only [sdl1AudioCallback, if_neg h1ns,
      sdl1Loop_empty convertToS16 g st1 len hlen0 h1pos]
  · simp only [sdl1AudioCallback, hb, eq_self_iff_true, if_true]

/-- C6 witness: the engine-empty theorem at a concrete request of four
frames on fresh and stopped device states. -/
theorem sdl_callback_engine_empty_witness :
    (sdl2Fresh.stopped = false ∧ sdl2Fresh.currentBufferFramePos = 0 ∧
      sdl1Fresh.stopped = false ∧ sdl1Fresh.convertedBufPos = 0 ∧
      (0:ℕ) < 4 ∧ sdl1Stopped.stopped = true) ∧
    ((sdl2AudioCallback 1 [] sdl2Fresh 4).1 = List.replicate 4 zeroFrame ∧
      (sdl1AudioCallback convFix 1 [] sdl1Fresh 4).1 = List.replicate 4 (0:ℤ) ∧
      (sdl1AudioCallback convFix 1 [] sdl1Fresh 4).2.1.stopped = true ∧
      sdl1AudioCallback convFix 1 [[((1:ℚ), (1:ℚ))]] sdl1Stopped 4
        = (List.replicate 4 (0:ℤ), sdl1Stopped, [[((1:ℚ), (1:ℚ))]])) :=
  ⟨⟨rfl, rfl, rfl, rfl, by norm_num, rfl⟩,
    sdl_callback_engine_empty convFix 1 [[((1:ℚ), (1:ℚ))]] sdl2Fresh sdl1Fresh
      sdl1Stopped 4 rfl rfl rfl rfl (by norm_num) rfl⟩

/-- The SDL2 loop pulling a fresh period: the engine buffer is stored,
the gain is applied in place to the first len frames, those frames are
copied out and the position advances to len modulo the buffer length. -/
theorem sdl2Loop_pull (g : ℚ) (b : List SampleFrame)
    (rest : List (List SampleFrame)) (st : Sdl2State) (len : ℕ)
    (hlen : len ≠ 0) (hpos : st.currentBufferFramePos = 0)
    (hble : len ≤ b.length) :
    sdl2Loop g (b :: rest) st len
      = ((b.take len).map (applyGain g),
         { st with
            outBuf := (b.take len).map (applyGain g) ++ b.drop len
            currentBufferFramesCount := b.length
            currentBufferFramePos := len % b.length },
         rest) := by
  have hbne : ¬ (b.length = 0) := by
    intro hc
    rw [hc] at hble
    exact hlen (Nat.le_zero.mp hble)
  have hmin : min len (b.length - 0) = len := by
    rw [Nat.sub_zero]
    exact min_eq_left hble
  rw [sdl2Loop.eq_def]
  simp only [dif_neg hlen, hpos, eq_self_iff_true, if_true, if_neg hbne,
    hmin, Nat.sub_self, sdl2Loop_zero, List.drop_zero, List.take_zero,
    List.nil_append, List.append_nil, Nat.zero_add]

/-- The SDL2 loop resuming mid-buffer and consuming exactly the rest of
the stored period: the gain is applied in place to the remaining frames,
they are copied out, and the position wraps modulo the frame count. -/
theorem sdl2Loop_resume (g : ℚ) (pulls : List (List SampleFrame))
    (st : Sdl2State) (len : ℕ)
    (hlen : len ≠ 0) (hposn : st.currentBufferFramePos ≠ 0)
    (hle : len ≤ st.currentBufferFramesCount - st.currentBufferFramePos) :
    sdl2Loop g pulls st len
      = (((st.outBuf.drop st.currentBufferFramePos).take len).map (applyGain g),
         { st with
            outBuf := st.outBuf.take st.currentBufferFramePos ++
              ((st.outBuf.drop st.currentBufferFramePos).take len).map (applyGain g) ++
              st.outBuf.drop (st.currentBufferFramePos + len)
            currentBufferFramePos :=
              (st.currentBufferFramePos + len) % st.currentBufferFramesCount },
         pulls) := by
  have hmin : min len (st.currentBufferFramesCount - st.currentBufferFramePos) = len :=
    min_eq_left hle
  rw [sdl2Loop.eq_def]
  simp only [dif_neg hlen, if_neg hposn, hmin, Nat.sub_self, sdl2Loop_zero,
    List.append_nil]

/-- C7: splitting one engine period across two callback requests, every
delivered frame carries the master gain applied exactly once and
uniformly to both channels: the concatenated output is the gain-scaled
period, a gain of 1 returns the period unchanged, and a gain of 0
returns exact silence. -/
theorem sdl2_gain_applied_once (g : ℚ) (b : List SampleFrame) (st : Sdl2State)
    (len1 len2 : ℕ)
    (hstop : st.stopped = false) (hpos : st.currentBufferFramePos = 0)
    (hlen1 : 0 < len1) (hlen2 : 0 < len2) (hsum : len1 + len2 = b.length) :
    (sdl2AudioCallback g [b] st len1).1 ++
        (sdl2AudioCallback g (sdl2AudioCallback g [b] st len1).2.2
          (sdl2AudioCallback g [b] st len1).2.1 len2).1
      = b.map (applyGain g) ∧
    (g = 1 →
      (sdl2AudioCallback g [b] st len1).1 ++
          (sdl2AudioCallback g (sdl2AudioCallback g [b] st len1).2.2
            (sdl2AudioCallback g [b] st len1).2.1 len2).1
        = b) ∧
    (g = 0 →
      (sdl2AudioCallback g [b] st len1).1 ++
          (sdl2AudioCallback g (sdl2AudioCallback g [b] st len1).2.2
            (sdl2AudioCallback g [b] st len1).2.1 len2).1
        = List.replicate b.length zeroFrame) := by
  have hlen1n : len1 ≠ 0 := Nat.pos_iff_ne_zero.mp hlen1
  have hlen2n : len2 ≠ 0 := Nat.pos_iff_ne_zero.mp hlen2
  have hlt : len1 < b.length := by omega
  have hble : len1 ≤ b.length := le_of_lt hlt
  have hnstop : ¬ (st.stopped = true) := by rw [hstop]; exact Bool.false_ne_true
  have h1 : sdl2AudioCallback g [b] st len1
      = ((b.take len1).map (applyGain g),
         { st with
            outBuf := (b.take len1).map (applyGain g) ++ b.drop len1
            currentBufferFramesCount := b.length
            currentBufferFramePos := len1 % b.length },
         []) := by
    simp only [sdl2AudioCallback, if_neg hnstop]
    exact sdl2Loop_pull g b [] st len1 hlen1n hpos hble
  have hmod : len1 % b.length = len1 := Nat.mod_eq_of_lt hlt
  have hS1len : ((b.take len1).map (applyGain g)).length = len1 := by
    rw [List.length_map, List.length_take]
    exact min_eq_left hble
  have hdrop : (((b.take len1).map (applyGain g)) ++ b.drop len1).drop len1 = b.drop len1 :=
    List.drop_left' hS1len
  have hdlen : (b.drop len1).length = len2 := by
    rw [List.length_drop]
    omega
  have htake2 : (b.drop len1).take len2 = b.drop len1 := by
    rw [← hdlen]
    exact List.take_length _
  have h2 : (sdl2AudioCallback g (sdl2AudioCallback g [b] st len1).2.2
        (sdl2AudioCallback g [b] st len1).2.1 len2).1
      = (b.drop len1).map (applyGain g) := by
    rw [h1]
    have hposn : len1 % b.length ≠ 0 := by rw [hmod]; exact hlen1n
    have hle2 : len2 ≤ b.length - len1 % b.length := by rw [hmod]; omega
    simp only [sdl2AudioCallback, if_neg hnstop]
    rw [sdl2Loop_resume g [] _ len2 hlen2n hposn hle2]
    simp only [hmod, hdrop, htake2]
  have hmain : (sdl2AudioCallback g [b] st len1).1 ++
      (sdl2AudioCallback g (sdl2AudioCallback g [b] st len1).2.2
        (sdl2AudioCallback g [b] st len1).2.1 len2).1
      = b.map (applyGain g) := by
    rw [h2, h1]
    rw [← List.map_append, List.take_append_drop]
  refine ⟨hmain, ?_, ?_⟩
  · intro hg
    rw [hmain, hg]
    have hfun : applyGain 1 = id := by
      funext fr
      simp [applyGain]
    rw [hfun, List.map_id]
  · intro hg
    rw [hmain, hg]
    have : ∀ l : List SampleFrame, l.map (applyGain 0) = List.replicate l.length zeroFrame := by
      intro l
      induction l with
      | nil => rfl
      | cons x xs ihl => simp [applyGain, zeroFrame, List.replicate_succ, ihl]
    exact this b

/-- C7 witness: a two-frame period delivered in two one-frame requests
with gain 2. -/
theorem sdl2_gain_applied_once_witness :
    (sdl2Fresh.stopped = false ∧ sdl2Fresh.currentBufferFramePos = 0 ∧
      (0:ℕ) < 1 ∧ (1:ℕ) + 1 = ([((1:ℚ), (2:ℚ)), ((3:ℚ), (4:ℚ))] : List SampleFrame).length) ∧
    ((sdl2AudioCallback 2 [[((1:ℚ), (2:ℚ)), ((3:ℚ), (4:ℚ))]] sdl2Fresh 1).1 ++
        (sdl2AudioCallback 2
          (sdl2AudioCallback 2 [[((1:ℚ), (2:ℚ)), ((3:ℚ), (4:ℚ))]] sdl2Fresh 1).2.2
          (sdl2AudioCallback 2 [[((1:ℚ), (2:ℚ)), ((3:ℚ), (4:ℚ))]] sdl2Fresh 1).2.1 1).1
      = ([((1:ℚ), (2:ℚ)), ((3:ℚ), (4:ℚ))] : List SampleFrame).map (applyGain 2) ∧
      ((2:ℚ) = 1 →
        (sdl2AudioCallback 2 [[((1:ℚ), (2:ℚ)), ((3:ℚ), (4:ℚ))]] sdl2Fresh 1).1 ++
            (sdl2AudioCallback 2
              (sdl2AudioCallback 2 [[((1:ℚ), (2:ℚ)), ((3:ℚ), (4:ℚ))]] sdl2Fresh 1).2.2
              (sdl2AudioCallback 2 [[((1:ℚ), (2:ℚ)), ((3:ℚ), (4:ℚ))]] sdl2Fresh 1).2.1 1).1
          = [((1:ℚ), (2:ℚ)), ((3:ℚ), (4:ℚ))]) ∧
      ((2:ℚ) = 0 →
        (sdl2AudioCallback 2 [[((1:ℚ), (2:ℚ)), ((3:ℚ), (4:ℚ))]] sdl2Fresh 1).1 ++
            (sdl2AudioCallback 2
              (sdl2AudioCallback 2 [[((1:ℚ), (2:ℚ)), ((3:ℚ), (4:ℚ))]] sdl2Fresh 1).2.2
              (sdl2AudioCallback 2 [[((1:ℚ), (2:ℚ)), ((3:ℚ), (4:ℚ))]] sdl2Fresh 1).2.1 1).1
          = List.replicate ([((1:ℚ), (2:ℚ)), ((3:ℚ), (4:ℚ))] : List SampleFrame).length
              zeroFrame)) :=
  ⟨⟨rfl, rfl, by norm_num, by norm_num⟩,
    sdl2_gain_applied_once 2 [((1:ℚ), (2:ℚ)), ((3:ℚ), (4:ℚ))] sdl2Fresh 1 1
      rfl rfl (by norm_num) (by norm_num) (by norm_num)⟩

/-- C5 witness: two successive periods of an exhausted note produce
only zero-filled spans. -/
theorem afp_playNote_exhausted_silence_witness :
    ((20:ℚ) ≤ 440 ∧ afpStutterState.loopModel = 0) ∧
    (playPeriods exhaustedPlay id 440 false [(4, 2, testBuf), (3, 0, testBuf)]
        afpStutterState (some pdAtEnd)).1
      = [(4, 2, testBuf), (3, 0, testBuf)].map (fun p =>
          List.replicate (p.1 + p.2.1) zeroFrame ++ p.2.2.drop (p.1 + p.2.1)) :=
  ⟨⟨by norm_num, rfl⟩,
    afp_playNote_exhausted_silence exhaustedPlay id 440 false 0 pdAtEnd
      [(4, 2, testBuf), (3, 0, testBuf)] afpStutterState (by norm_num) rfl
      (fun f => ⟨rfl, rfl⟩)⟩

end LmmsCore
